import Mathlib

/-!
Shallow embedding of the heuristic fashion-feedback engine of the
tailor-ai backend: the color-harmony analyzer (ColorService), the
proportion/fit rules engine (RulesEngine) and the style-similarity
aggregator (StyleEngine).  Python floats are modelled by rationals,
lists/dicts by Lean lists and structures.  Pixel-level collaborator
steps (image decode, k-means clustering, CLIP encoding, cosine
similarity on CLIP vectors) are abstracted as function parameters,
since the spec treats those models as external collaborators; all
arithmetic, branching and list manipulation of the engine itself is
translated directly from the source.
-/

namespace TailorAI

/-- The shared feedback record produced by RulesEngine._create_feedback
and StyleEngine._create_style_feedback.  The source field named
observably as the dict key "type" is `type`; "class"-like strings stay
strings. -/
structure Feedback where
  type : String
  message : String
  confidence : ℚ
  priority : String
  actionable : Bool
deriving DecidableEq, Repr

/-- Bounding box (x1, y1, x2, y2) as produced by the detector. -/
structure BBox where
  x1 : ℤ
  y1 : ℤ
  x2 : ℤ
  y2 : ℤ
deriving DecidableEq, Repr

/-- One object detection.  The source dict key "class" (a Lean keyword)
is rendered as the field `cls`. -/
structure Detection where
  bbox : BBox
  cls : String
  confidence : ℚ
deriving DecidableEq, Repr

/-- One segmentation result; the opaque mask is never read by the core,
so only the fields the core touches are modelled. -/
structure SegResult where
  bbox : BBox
  cls : String
  confidence : ℚ
deriving DecidableEq, Repr

/-- Optional user preferences dict; the only key the engine ever reads
is "fit_preferences", whose possible absence is an `Option`. -/
structure UserPrefs where
  fit_preferences : Option String
deriving DecidableEq, Repr

/-- RulesEngine._create_feedback (the `actionable` default `True` is
passed explicitly at every call site of this model). -/
def create_feedback (feedback_type : String) (message : String)
    (confidence : ℚ) (priority : String) (actionable : Bool) : Feedback :=
  { type := feedback_type, message := message, confidence := confidence,
    priority := priority, actionable := actionable }

/-- RulesEngine.proportion_rules["shirt_length"]["ideal_ratio"]. -/
def shirt_length_ideal_ratio : ℚ := 4/10

/-- RulesEngine.proportion_rules["shirt_length"]["tolerance"]. -/
def shirt_length_tolerance : ℚ := 1/10

/-- RulesEngine.proportion_rules["pants_length"]["ideal_ratio"]. -/
def pants_length_ideal_ratio : ℚ := 6/10

/-- RulesEngine.proportion_rules["pants_length"]["tolerance"]. -/
def pants_length_tolerance : ℚ := 1/10

/-- Loop body of RulesEngine._analyze_garment_proportions for a single
detection: the items appended to `feedback` for that detection.  A
detection whose class is not shirt/pants/dress, or is "dress" (which
has no branch in the source), contributes nothing. -/
def analyze_garment_proportions_one (person_height : ℚ)
    (detection : Detection) : List Feedback :=
  if detection.cls ∈ ["shirt", "pants", "dress"] then
    let garment_height : ℚ := ((detection.bbox.y2 - detection.bbox.y1 : ℤ) : ℚ)
    let garment_ratio := garment_height / person_height
    if detection.cls = "shirt" then
      let ideal_ratio := shirt_length_ideal_ratio
      let tolerance := shirt_length_tolerance
      if |garment_ratio - ideal_ratio| > tolerance then
        if garment_ratio > ideal_ratio + tolerance then
          [create_feedback "proportion"
            "The shirt appears too long for your body proportions"
            (8/10) "medium" true]
        else
          [create_feedback "proportion"
            "The shirt appears too short for your body proportions"
            (8/10) "medium" true]
      else
        [create_feedback "proportion"
          "The shirt length is well-proportioned for your body"
          (9/10) "low" false]
    else if detection.cls = "pants" then
      let ideal_ratio := pants_length_ideal_ratio
      let tolerance := pants_length_tolerance
      if |garment_ratio - ideal_ratio| > tolerance then
        if garment_ratio > ideal_ratio + tolerance then
          [create_feedback "proportion"
            "The pants appear too long for your body proportions"
            (8/10) "medium" true]
        else
          [create_feedback "proportion"
            "The pants appear too short for your body proportions"
            (8/10) "medium" true]
      else
        [create_feedback "proportion"
          "The pants length is well-proportioned for your body"
          (9/10) "low" false]
    else []
  else []

/-- RulesEngine._analyze_garment_proportions: person height from the
person bbox, then one pass over the detections. -/
def analyze_garment_proportions (detections : List Detection)
    (person_detection : Detection) : List Feedback :=
  let person_height : ℚ :=
    ((person_detection.bbox.y2 - person_detection.bbox.y1 : ℤ) : ℚ)
  detections.flatMap (analyze_garment_proportions_one person_height)

/-- Loop body of RulesEngine._analyze_fit_quality for one detection:
tiers on the raw detection confidence. -/
def analyze_fit_quality_one (detection : Detection) : List Feedback :=
  if detection.cls ∈ ["shirt", "pants", "dress"] then
    let confidence := detection.confidence
    if confidence > 9/10 then
      [create_feedback "fit"
        ("The " ++ detection.cls ++ " appears to fit well")
        (85/100) "low" false]
    else if confidence > 7/10 then
      [create_feedback "fit"
        ("The " ++ detection.cls ++ " fit could be improved")
        (75/100) "medium" true]
    else
      [create_feedback "fit"
        ("The " ++ detection.cls ++ " doesn\x27t appear to fit properly")
        (65/100) "high" true]
  else []

/-- RulesEngine._analyze_fit_quality.  The source reads the user fit
preference (default "fitted") into a local that is never used
afterwards; the unused binding is kept to mirror the source. -/
def analyze_fit_quality (detections : List Detection)
    (person_detection : Detection) (user_prefs : Option UserPrefs) :
    List Feedback :=
  let _fit_preference : String :=
    match user_prefs with
    | some prefs => prefs.fit_preferences.getD "fitted"
    | none => "fitted"
  detections.flatMap analyze_fit_quality_one

/-- RulesEngine._analyze_outfit_balance: the garment-type list keeps
duplicates (it is a list comprehension, not a set); the shirt+pants
reward and the dress reward are an if/elif pair; the jacket reward is
an independent second if. -/
def analyze_outfit_balance (detections : List Detection)
    (person_detection : Detection) (user_prefs : Option UserPrefs) :
    List Feedback :=
  let garment_types :=
    (detections.filter (fun det =>
      det.cls ∈ ["shirt", "pants", "dress", "skirt", "jacket"])).map
      (fun det => det.cls)
  if garment_types.length ≥ 2 then
    (if "shirt" ∈ garment_types ∧ "pants" ∈ garment_types then
      [create_feedback "style"
        "Good basic outfit coordination with shirt and pants"
        (8/10) "low" false]
    else if "dress" ∈ garment_types then
      [create_feedback "style"
        "Dress provides a cohesive, coordinated look"
        (85/100) "low" false]
    else []) ++
    (if "jacket" ∈ garment_types then
      [create_feedback "style"
        "Good use of layering with the jacket"
        (8/10) "medium" false]
    else [])
  else
    [create_feedback "style"
      "Consider adding more pieces for a complete outfit"
      (7/10) "medium" true]

/-- RulesEngine._find_person_detection. -/
def find_person_detection (detections : List Detection) :
    Option Detection :=
  detections.find? (fun detection => detection.cls = "person")

/-- RulesEngine.analyze_proportions: person lookup, then garment
proportions, fit quality and outfit balance concatenated.  The
segmentation results are accepted but never read by the source. -/
def analyze_proportions (detections : List Detection)
    (segmentation_results : List SegResult)
    (user_prefs : Option UserPrefs) : List Feedback :=
  match find_person_detection detections with
  | none =>
      [create_feedback "general" "No person detected in the image"
        (1/2) "low" true]
  | some person_detection =>
      analyze_garment_proportions detections person_detection ++
      analyze_fit_quality detections person_detection user_prefs ++
      analyze_outfit_balance detections person_detection user_prefs

/-- An HSV triple as the ColorService passes it around ([h, s, v] lists
in the source, with h in degrees and s, v on a 0..255 scale). -/
structure HSV where
  h : ℚ
  s : ℚ
  v : ℚ
deriving DecidableEq, Repr

/-- One entry of the dominant-color lists built by
ColorService._extract_dominant_colors. -/
structure ColorInfo where
  hsv : HSV
  rgb : List ℤ
  hex : String
deriving DecidableEq, Repr

/-- Result of ColorService._analyze_skin_tone.  In the undetected case
the source dict carries no "hsv"/"tone" beyond tone = "unknown"; the
consumer reads hsv with default [0, 0, 0], which is the value stored
here. -/
structure SkinTone where
  detected : Bool
  tone : String
  hsv : HSV
deriving DecidableEq, Repr

/-- One entry of the garment-color list built by
ColorService._analyze_garment_colors (dict key "class" rendered as
`cls`). -/
structure GarmentColor where
  cls : String
  colors : List ColorInfo
  primary_color : Option ColorInfo
deriving DecidableEq, Repr

/-- The dict returned by ColorService._analyze_color_harmony.  In the
undetected-skin branch the source dict has no "individual_scores" key;
that absence is modelled as the empty list. -/
structure HarmonyAnalysis where
  overall_score : ℚ
  individual_scores : List ℚ
  feedback : List String
  harmony_type : String
deriving DecidableEq, Repr

/-- The dict returned by ColorService.analyze_colors. -/
structure ColorAnalysis where
  skin_tone : SkinTone
  garment_colors : List GarmentColor
  harmony_analysis : HarmonyAnalysis
  overall_score : ℚ
deriving DecidableEq, Repr

/-- The circular hue-difference computation at the top of
ColorService._calculate_harmony_score: hue_diff = |h1 - h2|, folded to
360 - hue_diff when it exceeds 180. -/
def hue_distance (h1 h2 : ℚ) : ℚ :=
  let hue_diff := |h1 - h2|
  if hue_diff > 180 then 360 - hue_diff else hue_diff

/-- ColorService._calculate_harmony_score: tiered base score on the
circular hue distance, +0.1 when both the saturation and the value
difference (each normalized by 255) are below 0.3, clamped to 1.0. -/
def calculate_harmony_score (color1_hsv color2_hsv : HSV) : ℚ :=
  let hue_diff := hue_distance color1_hsv.h color2_hsv.h
  let sat_diff := |color1_hsv.s - color2_hsv.s| / 255
  let val_diff := |color1_hsv.v - color2_hsv.v| / 255
  let harmony_score : ℚ :=
    if hue_diff ≤ 30 then 9/10
    else if |hue_diff - 180| ≤ 30 then 8/10
    else if |hue_diff - 120| ≤ 30 then 7/10
    else 1/2
  let harmony_score :=
    if sat_diff < 3/10 ∧ val_diff < 3/10 then harmony_score + 1/10
    else harmony_score
  min harmony_score 1

/-- ColorService._classify_harmony_type. -/
def classify_harmony_type (score : ℚ) : String :=
  if score > 8/10 then "excellent"
  else if score > 7/10 then "good"
  else if score > 6/10 then "neutral"
  else "poor"

/-- ColorService._generate_color_feedback. -/
def generate_color_feedback (skin_tone : String) (garment_class : String)
    (harmony_score : ℚ) : String :=
  if harmony_score > 8/10 then
    "The " ++ garment_class ++ " color works beautifully with your " ++
      skin_tone ++ " skin tone"
  else if harmony_score > 7/10 then
    "The " ++ garment_class ++ " color complements your " ++
      skin_tone ++ " skin tone well"
  else if harmony_score > 6/10 then
    "The " ++ garment_class ++ " color is acceptable with your " ++
      skin_tone ++ " skin tone"
  else
    "Consider a different color for the " ++ garment_class ++
      " to better complement your " ++ skin_tone ++ " skin tone"

/-- ColorService._analyze_color_harmony.  The single loop of the source
appends a score and a feedback string for exactly the garments that
carry a primary color; it is rendered as one filterMap producing the
(score, feedback) pairs in order, then projected. -/
def analyze_color_harmony (skin_tone : SkinTone)
    (garment_colors : List GarmentColor) : HarmonyAnalysis :=
  if skin_tone.detected = false then
    { overall_score := 1/2,
      individual_scores := [],
      feedback := ["Unable to detect skin tone for color analysis"],
      harmony_type := "unknown" }
  else
    let skin_hsv := skin_tone.hsv
    let scored := garment_colors.filterMap (fun garment =>
      match garment.primary_color with
      | some primary =>
          let harmony_score := calculate_harmony_score skin_hsv primary.hsv
          some (harmony_score,
            generate_color_feedback skin_tone.tone garment.cls harmony_score)
      | none => none)
    let harmony_scores := scored.map Prod.fst
    let overall_score : ℚ :=
      if harmony_scores = [] then 7/10
      else harmony_scores.sum / harmony_scores.length
    { overall_score := overall_score,
      individual_scores := harmony_scores,
      feedback := scored.map Prod.snd,
      harmony_type := classify_harmony_type overall_score }

/-- ColorService._analyze_garment_colors.  The pixel work (cropping the
bbox region of the HSV image and k-means clustering inside
_extract_dominant_colors) is abstracted as the parameter `extract`,
mapping a bbox to the dominant-color list of its region; everything
else (iteration order, primary_color = first color or none) follows
the source. -/
def analyze_garment_colors (extract : BBox → List ColorInfo)
    (segmentation_results : List SegResult) : List GarmentColor :=
  segmentation_results.map (fun seg_result =>
    let dominant_colors := extract seg_result.bbox
    { cls := seg_result.cls,
      colors := dominant_colors,
      primary_color := dominant_colors.head? })

/-- ColorService.analyze_colors.  Frame decoding and the skin-tone
pixel scan of _analyze_skin_tone are abstracted as the already-computed
`skin_tone` parameter, and clustering as `extract` (see
analyze_garment_colors); the source then always extracts garment
colors, runs the harmony analysis, and assembles the result dict. -/
def analyze_colors (skin_tone : SkinTone) (extract : BBox → List ColorInfo)
    (segmentation_results : List SegResult) : ColorAnalysis :=
  let garment_colors := analyze_garment_colors extract segmentation_results
  let harmony_analysis := analyze_color_harmony skin_tone garment_colors
  { skin_tone := skin_tone,
    garment_colors := garment_colors,
    harmony_analysis := harmony_analysis,
    overall_score := harmony_analysis.overall_score }

/-- A CLIP-style embedding vector. -/
def Embedding : Type := List ℚ

instance : DecidableEq Embedding := by
  unfold Embedding
  infer_instance

/-- The StyleEngine.style_cache dict, as an association list from style
identifier to its reference-embedding list (most recent insertion
first, as dict updates never duplicate keys in the runs modelled
here). -/
def StyleCache : Type := List (String × List Embedding)

/-- Dict membership/lookup on the style cache. -/
def cache_lookup : StyleCache → String → Option (List Embedding)
  | [], _ => none
  | (key, value) :: rest, style_id =>
      if style_id = key then some value else cache_lookup rest style_id

/-- StyleEngine.similarity_threshold. -/
def similarity_threshold : ℚ := 7/10

/-- The mock reference embeddings substituted by
StyleEngine.get_style_embeddings when the style identifier is not in
the cache. -/
def mock_style_embeddings : List Embedding :=
  [List.replicate 512 (1/10),
   List.replicate 512 (2/10),
   List.replicate 512 (15/100)]

/-- StyleEngine.get_style_embeddings: a cached entry is returned as is;
a missing identifier yields the mock embeddings, which are also written
into the cache.  Returns the embeddings and the updated cache (the
source mutates self.style_cache). -/
def get_style_embeddings (cache : StyleCache) (style_id : String) :
    List Embedding × StyleCache :=
  match cache_lookup cache style_id with
  | some embeddings => (embeddings, cache)
  | none => (mock_style_embeddings, (style_id, mock_style_embeddings) :: cache)

/-- StyleEngine._create_style_feedback. -/
def create_style_feedback (message : String) (confidence : ℚ)
    (priority : String) : Feedback :=
  { type := "style", message := message, confidence := confidence,
    priority := priority, actionable := true }

/-- Python max over a similarity list (the source guards emptiness with
`max(similarities) if similarities else 0.0`). -/
def list_max : List ℚ → ℚ
  | [] => 0
  | x :: xs => xs.foldl max x

/-- np.mean of a similarity list (the source guards emptiness, mapping
an empty list to 0.0 or, in the harmony analyzer, to 0.7). -/
def np_mean (l : List ℚ) : ℚ := l.sum / l.length

/-- StyleEngine._analyze_garment_style_match.  The source builds a
mock garment embedding [0.1] * 512 for every segmented garment and
compares it against each reference embedding through the CLIP
collaborator, abstracted as `sim`. -/
def analyze_garment_style_match (sim : Embedding → Embedding → ℚ)
    (segmentation_results : List SegResult)
    (style_embeddings : List Embedding) : List Feedback :=
  segmentation_results.map (fun seg_result =>
    let garment_class := seg_result.cls
    let garment_embedding : Embedding := List.replicate 512 (1/10)
    let similarities := style_embeddings.map (sim garment_embedding)
    let avg_similarity := if similarities = [] then 0 else np_mean similarities
    if avg_similarity > 8/10 then
      create_style_feedback
        ("The " ++ garment_class ++ " perfectly matches your reference style")
        avg_similarity "medium"
    else if avg_similarity > 6/10 then
      create_style_feedback
        ("The " ++ garment_class ++ " works well with your reference style")
        avg_similarity "low"
    else
      create_style_feedback
        ("Consider a different " ++ garment_class ++
          " to better match your reference style")
        avg_similarity "high")

/-- StyleEngine.match_style.  The CLIP collaborator calls are the
parameters `encode` (encode_image on the frame bytes, here an opaque
String) and `sim` (compute_image_similarity); the percentage formatting
of Python f-strings is the parameter `format_pct`.  Everything else —
the empty-reference early return, max/mean tiering, and the optional
per-garment feedback — follows the source. -/
def match_style (encode : String → Embedding)
    (sim : Embedding → Embedding → ℚ) (format_pct : ℚ → String)
    (cache : StyleCache) (frame : String)
    (segmentation_results : List SegResult) (style_id : String) :
    List Feedback :=
  let (style_embeddings, _cache2) := get_style_embeddings cache style_id
  if style_embeddings = [] then
    [create_style_feedback "No reference style found" 0 "low"]
  else
    let frame_embedding := encode frame
    let similarities := style_embeddings.map (sim frame_embedding)
    let best_similarity := if similarities = [] then 0 else list_max similarities
    let avg_similarity := if similarities = [] then 0 else np_mean similarities
    let feedback :=
      if best_similarity > similarity_threshold then
        [create_style_feedback
          ("Excellent style match! This outfit closely resembles your reference style (" ++
            format_pct best_similarity ++ " similarity)")
          best_similarity "high"]
      else if avg_similarity > 1/2 then
        [create_style_feedback
          ("Good style alignment. Your outfit has " ++
            format_pct avg_similarity ++ " similarity with your reference style")
          avg_similarity "medium"]
      else
        [create_style_feedback
          ("Consider adjusting your outfit to better match your reference style (current similarity: " ++
            format_pct avg_similarity ++ ")")
          avg_similarity "high"]
    feedback ++
      (if segmentation_results ≠ [] then
        analyze_garment_style_match sim segmentation_results style_embeddings
      else [])

/-- StyleEngine.create_style_profile.  The fresh identifier handed out
by uuid is the parameter `style_id`; the CLIP collaborator is `encode`.
The source encodes every supplied image URL, stores the embedding list
under the new identifier and returns the identifier together with the
updated cache.  The tags and description are accepted and ignored (the
database write that would use them is commented out in the source). -/
def create_style_profile (encode : String → Embedding) (style_id : String)
    (cache : StyleCache) (image_urls : List String)
    (tags : List String) : String × StyleCache :=
  let embeddings := image_urls.map encode
  (style_id, (style_id, embeddings) :: cache)

/-- The pairwise harmony computation as the spec describes it, for
comparison with calculate_harmony_score: circular distance taken as
min of the raw difference and its complement to 360, the same tier
chain, the same saturation/value bonus and clamp. -/
def harmony_score_spec (c1 c2 : HSV) : ℚ :=
  let d := min (|c1.h - c2.h|) (360 - |c1.h - c2.h|)
  let base : ℚ :=
    if d ≤ 30 then 9/10
    else if |d - 180| ≤ 30 then 8/10
    else if |d - 120| ≤ 30 then 7/10
    else 1/2
  let adjusted :=
    if |c1.s - c2.s| / 255 < 3/10 ∧ |c1.v - c2.v| / 255 < 3/10 then
      base + 1/10
    else base
  min adjusted 1

/-- The outfit-balance emission described over messages, for comparison
with analyze_outfit_balance: the garment-type count keeps duplicate
classes, the shirt+pants reward excludes the dress reward, the jacket
reward is additive, and fewer than two garment entries produce the
single add-more-pieces suggestion. -/
def outfit_balance_messages_spec (detections : List Detection) :
    List String :=
  let garment_types :=
    (detections.filter (fun det =>
      det.cls ∈ ["shirt", "pants", "dress", "skirt", "jacket"])).map
      (fun det => det.cls)
  if garment_types.length ≥ 2 then
    (if "shirt" ∈ garment_types ∧ "pants" ∈ garment_types then
      ["Good basic outfit coordination with shirt and pants"]
    else if "dress" ∈ garment_types then
      ["Dress provides a cohesive, coordinated look"]
    else []) ++
    (if "jacket" ∈ garment_types then
      ["Good use of layering with the jacket"]
    else [])
  else
    ["Consider adding more pieces for a complete outfit"]

/-! Helper lemmas shared by the claim theorems. -/

theorem hue_distance_eq_min (h1 h2 : ℚ) :
    hue_distance h1 h2 = min (|h1 - h2|) (360 - |h1 - h2|) := by
  unfold hue_distance
  rcases le_or_lt (|h1 - h2|) 180 with h | h
  · rw [if_neg (by simpa using not_lt.mpr h)]
    exact (min_eq_left (by linarith)).symm
  · rw [if_pos (by simpa using h)]
    exact (min_eq_right (by linarith)).symm

theorem harmony_score_bounds (c1 c2 : HSV) :
    1/2 ≤ calculate_harmony_score c1 c2 ∧ calculate_harmony_score c1 c2 ≤ 1 := by
  unfold calculate_harmony_score
  constructor
  · apply le_min _ (by norm_num)
    split_ifs <;> norm_num
  · exact min_le_right _ _

theorem np_mean_mem_unit (l : List ℚ) (h : ∀ x ∈ l, 0 ≤ x ∧ x ≤ 1) :
    0 ≤ np_mean l ∧ np_mean l ≤ 1 := by
  rcases l with _ | ⟨x, xs⟩
  · simp [np_mean]
  · have hlen : (0 : ℚ) < ((x :: xs).length : ℚ) := by
      exact_mod_cast Nat.succ_pos xs.length
    have hsum0 : 0 ≤ (x :: xs).sum :=
      List.sum_nonneg (fun y hy => (h y hy).1)
    have hsum1 : (x :: xs).sum ≤ ((x :: xs).length : ℚ) := by
      have := List.sum_le_card_nsmul (x :: xs) 1 (fun y hy => (h y hy).2)
      simpa [nsmul_eq_mul] using this
    constructor
    · exact div_nonneg hsum0 hlen.le
    · rw [np_mean, div_le_one hlen]
      exact hsum1

theorem analyze_fit_quality_singleton (det person_detection : Detection)
    (user_prefs : Option UserPrefs) :
    analyze_fit_quality [det] person_detection user_prefs =
      analyze_fit_quality_one det := by
  simp [analyze_fit_quality]

theorem analyze_garment_proportions_singleton (det person_detection : Detection) :
    analyze_garment_proportions [det] person_detection =
      analyze_garment_proportions_one
        (((person_detection.bbox.y2 - person_detection.bbox.y1 : ℤ) : ℚ)) det := by
  simp [analyze_garment_proportions]

theorem garment_one_shirt (person_height : ℚ) (det : Detection)
    (h : det.cls = "shirt") :
    analyze_garment_proportions_one person_height det =
      (if |((det.bbox.y2 - det.bbox.y1 : ℤ) : ℚ) / person_height -
            shirt_length_ideal_ratio| > shirt_length_tolerance then
        if ((det.bbox.y2 - det.bbox.y1 : ℤ) : ℚ) / person_height >
            shirt_length_ideal_ratio + shirt_length_tolerance then
          [create_feedback "proportion"
            "The shirt appears too long for your body proportions"
            (8/10) "medium" true]
        else
          [create_feedback "proportion"
            "The shirt appears too short for your body proportions"
            (8/10) "medium" true]
      else
        [create_feedback "proportion"
          "The shirt length is well-proportioned for your body"
          (9/10) "low" false]) := by
  simp [analyze_garment_proportions_one, h]

theorem garment_one_pants (person_height : ℚ) (det : Detection)
    (h : det.cls = "pants") :
    analyze_garment_proportions_one person_height det =
      (if |((det.bbox.y2 - det.bbox.y1 : ℤ) : ℚ) / person_height -
            pants_length_ideal_ratio| > pants_length_tolerance then
        if ((det.bbox.y2 - det.bbox.y1 : ℤ) : ℚ) / person_height >
            pants_length_ideal_ratio + pants_length_tolerance then
          [create_feedback "proportion"
            "The pants appear too long for your body proportions"
            (8/10) "medium" true]
        else
          [create_feedback "proportion"
            "The pants appear too short for your body proportions"
            (8/10) "medium" true]
      else
        [create_feedback "proportion"
          "The pants length is well-proportioned for your body"
          (9/10) "low" false]) := by
  simp [analyze_garment_proportions_one, h]

theorem harmony_scores_eq (skin : SkinTone)
    (garment_colors : List GarmentColor) (hdet : skin.detected = true) :
    (analyze_color_harmony skin garment_colors).individual_scores =
      garment_colors.filterMap (fun garment =>
        garment.primary_color.map
          (fun primary => calculate_harmony_score skin.hsv primary.hsv)) := by
  have hcond : ¬ (skin.detected = false) := by simp [hdet]
  simp only [analyze_color_harmony, if_neg hcond]
  induction garment_colors with
  | nil => rfl
  | cons g gs ih =>
      rw [List.filterMap_cons, List.filterMap_cons]
      cases hp : g.primary_color <;> simp [hp] <;> simpa using ih

theorem overall_bounds_aux (l : List ℚ) (hl : ∀ x ∈ l, 0 ≤ x ∧ x ≤ 1) :
    0 ≤ (if l = [] then (7:ℚ)/10 else l.sum / l.length) ∧
    (if l = [] then (7:ℚ)/10 else l.sum / l.length) ≤ 1 := by
  split_ifs with h
  · norm_num
  · exact np_mean_mem_unit l hl

/-! Claim theorems. -/

/-- Claim C9: the pairwise harmony score is symmetric in its two color
arguments, and the underlying hue distance is circular and symmetric,
with hue_distance 350 10 = 20. -/
theorem C9_theorem (c1 c2 : HSV) (h1 h2 : ℚ) :
    calculate_harmony_score c1 c2 = calculate_harmony_score c2 c1 ∧
    hue_distance h1 h2 = hue_distance h2 h1 ∧
    hue_distance 350 10 = 20 := by
  refine ⟨?_, ?_, by norm_num [hue_distance]⟩
  · unfold calculate_harmony_score hue_distance
    rw [abs_sub_comm c1.h c2.h, abs_sub_comm c1.s c2.s,
      abs_sub_comm c1.v c2.v]
  · unfold hue_distance
    rw [abs_sub_comm h1 h2]

/-- Claim C6: the pairwise harmony score computed by the source equals
the spec formula (circular distance as a min, the 0.9/0.8/0.7/0.5 tier
chain, the 0.1 saturation/value bonus, clamped at 1), a circular
distance of exactly 30 lands in the analogous tier, a distance of 31
falls through past it, and the result never exceeds 1. -/
theorem C6_theorem (c1 c2 : HSV) :
    calculate_harmony_score c1 c2 = harmony_score_spec c1 c2 ∧
    calculate_harmony_score c1 c2 ≤ 1 ∧
    calculate_harmony_score ⟨0, 0, 0⟩ ⟨30, 100, 100⟩ = 9/10 ∧
    calculate_harmony_score ⟨0, 0, 0⟩ ⟨31, 100, 100⟩ = 1/2 := by
  refine ⟨?_, (harmony_score_bounds c1 c2).2,
    by norm_num [calculate_harmony_score, hue_distance],
    by norm_num [calculate_harmony_score, hue_distance]⟩
  unfold calculate_harmony_score harmony_score_spec
  rw [hue_distance_eq_min]

/-- Claim C3 (amended): create_style_profile returns the supplied fresh
identifier and stores exactly one embedding per supplied image URL; an
empty URL list is not rejected and stores an empty embedding list. -/
theorem C3_theorem (encode : String → Embedding) (style_id : String)
    (cache : StyleCache) (image_urls : List String) (tags : List String) :
    (create_style_profile encode style_id cache image_urls tags).1 = style_id ∧
    cache_lookup (create_style_profile encode style_id cache image_urls tags).2
      style_id = some (image_urls.map encode) ∧
    (image_urls.map encode).length = image_urls.length := by
  refine ⟨rfl, ?_, by simp⟩
  simp [create_style_profile, cache_lookup]

/-- Claim C3 counterexample: a create_style_profile call with an empty
image-URL list completes (returns the fresh identifier) and leaves a
cached profile whose embedding list has zero elements. -/
theorem C3_counterexample :
    (create_style_profile (fun _ => List.replicate 512 (1/10))
      "style_deadbeef" [] [] []).1 = "style_deadbeef" ∧
    cache_lookup (create_style_profile (fun _ => List.replicate 512 (1/10))
      "style_deadbeef" [] [] []).2 "style_deadbeef" = some [] := by
  constructor
  · rfl
  · rfl

/-- Claim C1 (amended): match_style returns the single low-priority
"No reference style found" item at confidence 0.0 exactly for a
style identifier whose cached entry is an empty embedding list; an
identifier absent from the cache instead receives the mock reference
embeddings (see C1_counterexample) and full matching proceeds. -/
theorem C1_theorem (encode : String → Embedding)
    (sim : Embedding → Embedding → ℚ) (format_pct : ℚ → String)
    (cache : StyleCache) (frame : String)
    (segmentation_results : List SegResult) (style_id : String)
    (h : cache_lookup cache style_id = some []) :
    match_style encode sim format_pct cache frame segmentation_results
      style_id = [create_style_feedback "No reference style found" 0 "low"] := by
  simp [match_style, get_style_embeddings, h]

/-- Claim C1 witness: a cache holding an empty reference list for
"style_empty" makes match_style return exactly the no-reference item,
even with segmentation results supplied. -/
theorem C1_witness :
    cache_lookup [("style_empty", ([] : List Embedding))] "style_empty" =
      some [] ∧
    match_style (fun _ => []) (fun _ _ => 0) (fun _ => "0.0%")
      [("style_empty", [])] "frame" [⟨⟨0, 0, 4, 4⟩, "shirt", 9/10⟩]
      "style_empty" =
      [create_style_feedback "No reference style found" 0 "low"] :=
  ⟨rfl, C1_theorem _ _ _ _ _ _ _ rfl⟩

/-- Claim C1 counterexample: for a style identifier with no entry at
all in the cache (here the empty cache), match_style does not return
the no-reference item: get_style_embeddings substitutes the mock
reference embeddings and the similarity tiering runs.  The collaborator
functions used are exactly the development-mode CLIP stubs of the
source (constant [0.1]*512 embedding, constant 0.75 similarity). -/
theorem C1_counterexample :
    match_style (fun _ => List.replicate 512 (1/10)) (fun _ _ => 3/4)
      (fun _ => "75.0%") [] "frame" [] "style_123" ≠
    [create_style_feedback "No reference style found" 0 "low"] := by
  have hse : get_style_embeddings [] "style_123" =
      (mock_style_embeddings, [("style_123", mock_style_embeddings)]) := rfl
  have hne : mock_style_embeddings ≠ [] := by
    unfold mock_style_embeddings
    exact List.cons_ne_nil _ _
  have hsim : mock_style_embeddings.map (fun _ => (3 : ℚ)/4) =
      [3/4, 3/4, 3/4] := rfl
  have hval : (match_style (fun _ => List.replicate 512 (1/10))
      (fun _ _ => 3/4) (fun _ => "75.0%") [] "frame" [] "style_123").map
      Feedback.confidence = [3/4] := by
    simp only [match_style, hse]
    rw [if_neg hne, hsim]
    simp [list_max, similarity_threshold, create_style_feedback]
    norm_num
  intro hEq
  rw [hEq] at hval
  norm_num [create_style_feedback] at hval

/-- Claim C2 (amended): when the skin tone is undetected, the harmony
analysis short-circuits to the fixed neutral report (overall 0.5,
harmony_type "unknown", a single advisory feedback string, no pairwise
scores) and the overall score of the full result is 0.5 — but garment
color extraction still runs, leaving one garment-color entry per
segmentation result in the returned analysis. -/
theorem C2_theorem (skin : SkinTone) (extract : BBox → List ColorInfo)
    (segmentation_results : List SegResult) (hdet : skin.detected = false) :
    (analyze_colors skin extract segmentation_results).harmony_analysis =
      { overall_score := 1/2, individual_scores := [],
        feedback := ["Unable to detect skin tone for color analysis"],
        harmony_type := "unknown" } ∧
    (analyze_colors skin extract segmentation_results).overall_score = 1/2 ∧
    (analyze_colors skin extract segmentation_results).garment_colors.length =
      segmentation_results.length := by
  refine ⟨?_, ?_, ?_⟩ <;>
    simp [analyze_colors, analyze_color_harmony, analyze_garment_colors, hdet]

/-- Claim C2 witness: a concrete undetected skin tone with one
segmentation result, instantiating C2_theorem. -/
theorem C2_witness :
    (SkinTone.mk false "unknown" ⟨0, 0, 0⟩).detected = false ∧
    ((analyze_colors ⟨false, "unknown", ⟨0, 0, 0⟩⟩ (fun _ => [])
        [⟨⟨0, 0, 10, 10⟩, "shirt", 9/10⟩]).harmony_analysis =
      { overall_score := 1/2, individual_scores := [],
        feedback := ["Unable to detect skin tone for color analysis"],
        harmony_type := "unknown" } ∧
    (analyze_colors ⟨false, "unknown", ⟨0, 0, 0⟩⟩ (fun _ => [])
        [⟨⟨0, 0, 10, 10⟩, "shirt", 9/10⟩]).overall_score = 1/2 ∧
    (analyze_colors ⟨false, "unknown", ⟨0, 0, 0⟩⟩ (fun _ => [])
        [⟨⟨0, 0, 10, 10⟩, "shirt", 9/10⟩]).garment_colors.length =
      [(⟨⟨0, 0, 10, 10⟩, "shirt", 9/10⟩ : SegResult)].length) :=
  ⟨rfl, C2_theorem _ _ _ rfl⟩

/-- Claim C2 counterexample: with the skin tone undetected and one
segmentation result whose region clusters to a color, the result of
analyze_colors does contain a garment-color entry (the harmony part
still short-circuits to 0.5), refuting "no garment color extraction
work is attempted". -/
theorem C2_counterexample :
    (analyze_colors ⟨false, "unknown", ⟨0, 0, 0⟩⟩
        (fun _ => [⟨⟨210, 80, 90⟩, [46, 92, 230], "#2e5ce6"⟩])
        [⟨⟨0, 0, 10, 10⟩, "shirt", 9/10⟩]).garment_colors ≠ [] ∧
    (analyze_colors ⟨false, "unknown", ⟨0, 0, 0⟩⟩
        (fun _ => [⟨⟨210, 80, 90⟩, [46, 92, 230], "#2e5ce6"⟩])
        [⟨⟨0, 0, 10, 10⟩, "shirt", 9/10⟩]).overall_score = 1/2 := by
  constructor
  · simp [analyze_colors, analyze_garment_colors]
  · rfl

/-- Claim C4 (amended): over the emitted messages, the outfit-balance
analysis behaves as outfit_balance_messages_spec: the garment count
keeps duplicate classes, the shirt+pants reward and the dress reward
are mutually exclusive (if/elif), the jacket reward is independently
additive, and fewer than two garment entries yield the single
add-more-pieces suggestion. -/
theorem C4_theorem (detections : List Detection)
    (person_detection : Detection) (user_prefs : Option UserPrefs) :
    (analyze_outfit_balance detections person_detection user_prefs).map
      Feedback.message = outfit_balance_messages_spec detections := by
  simp only [analyze_outfit_balance, outfit_balance_messages_spec]
  split_ifs <;> simp [create_feedback]

/-- Claim C4 counterexample: with person, shirt, pants, dress and
jacket all detected, the dress reward is not emitted (the shirt+pants
reward shadows it through the elif), so the three rewards cannot all
co-occur; and with two jacket detections (one distinct class), the
analysis emits the jacket reward instead of the "add more pieces"
suggestion the claim requires for fewer than two distinct classes. -/
theorem C4_counterexample :
    "Dress provides a cohesive, coordinated look" ∉
      (analyze_outfit_balance
        [⟨⟨0, 0, 10, 20⟩, "person", 9/10⟩, ⟨⟨0, 0, 10, 10⟩, "shirt", 9/10⟩,
         ⟨⟨0, 0, 10, 10⟩, "pants", 9/10⟩, ⟨⟨0, 0, 10, 10⟩, "dress", 9/10⟩,
         ⟨⟨0, 0, 10, 10⟩, "jacket", 9/10⟩]
        ⟨⟨0, 0, 10, 20⟩, "person", 9/10⟩ none).map Feedback.message ∧
    (analyze_outfit_balance
        [⟨⟨0, 0, 10, 20⟩, "person", 9/10⟩, ⟨⟨0, 0, 10, 10⟩, "jacket", 9/10⟩,
         ⟨⟨0, 0, 10, 10⟩, "jacket", 9/10⟩]
        ⟨⟨0, 0, 10, 20⟩, "person", 9/10⟩ none).map Feedback.message =
      ["Good use of layering with the jacket"] := by decide

/-- Claim C5 (amended): the fit tier of a shirt/pants/dress detection
is a function of detection confidence alone: strictly above 0.9 gives
"fits well" (0.85, low, non-actionable); strictly above 0.7 and at
most 0.9 gives "could be improved" (0.75, medium, actionable); at or
below 0.7 — including confidence exactly 0.7 — gives "doesn\x27t fit
properly" (0.65, high, actionable). -/
theorem C5_theorem (person_detection det : Detection)
    (user_prefs : Option UserPrefs)
    (hcls : det.cls = "shirt" ∨ det.cls = "pants" ∨ det.cls = "dress") :
    (9/10 < det.confidence →
      analyze_fit_quality [det] person_detection user_prefs =
        [create_feedback "fit" ("The " ++ det.cls ++ " appears to fit well")
          (85/100) "low" false]) ∧
    (7/10 < det.confidence → det.confidence ≤ 9/10 →
      analyze_fit_quality [det] person_detection user_prefs =
        [create_feedback "fit" ("The " ++ det.cls ++ " fit could be improved")
          (75/100) "medium" true]) ∧
    (det.confidence ≤ 7/10 →
      analyze_fit_quality [det] person_detection user_prefs =
        [create_feedback "fit"
          ("The " ++ det.cls ++ " doesn\x27t appear to fit properly")
          (65/100) "high" true]) := by
  have hmem : det.cls ∈ (["shirt", "pants", "dress"] : List String) := by
    rcases hcls with h | h | h <;> simp [h]
  refine ⟨fun hgt => ?_, fun hgt hle => ?_, fun hle => ?_⟩ <;>
    rw [analyze_fit_quality_singleton] <;>
    simp only [analyze_fit_quality_one] <;>
    rw [if_pos hmem]
  · rw [if_pos hgt]
  · rw [if_neg (not_lt.mpr hle), if_pos hgt]
  · rw [if_neg (not_lt.mpr (by linarith)), if_neg (not_lt.mpr hle)]

/-- Claim C5 witness: a shirt detection at confidence exactly 0.9
lands in the middle tier (on the lower side of the strict > 0.9
test). -/
theorem C5_witness :
    analyze_fit_quality [⟨⟨0, 0, 10, 10⟩, "shirt", 9/10⟩]
      ⟨⟨0, 0, 10, 20⟩, "person", 95/100⟩ none =
      [create_feedback "fit" ("The " ++ "shirt" ++ " fit could be improved")
        (75/100) "medium" true] :=
  (C5_theorem ⟨⟨0, 0, 10, 20⟩, "person", 95/100⟩ ⟨⟨0, 0, 10, 10⟩, "shirt", 9/10⟩
    none (Or.inl rfl)).2.1 (by norm_num) (by norm_num)

/-- Claim C5 counterexample: a shirt detection at confidence exactly
0.7 receives the "doesn\x27t fit properly" item (0.65, high,
actionable), not the "could be improved" item (0.75, medium) that the
claim assigns to an endpoint-inclusive 0.7–0.9 range. -/
theorem C5_counterexample :
    analyze_fit_quality [⟨⟨0, 0, 10, 10⟩, "shirt", 7/10⟩]
      ⟨⟨0, 0, 10, 20⟩, "person", 95/100⟩ none =
      [create_feedback "fit" ("The shirt doesn\x27t appear to fit properly")
        (65/100) "high" true] ∧
    analyze_fit_quality [⟨⟨0, 0, 10, 10⟩, "shirt", 7/10⟩]
      ⟨⟨0, 0, 10, 20⟩, "person", 95/100⟩ none ≠
      [create_feedback "fit" ("The shirt fit could be improved")
        (75/100) "medium" true] := by
  constructor
  · norm_num [analyze_fit_quality, analyze_fit_quality_one, create_feedback]
    rfl
  · intro hEq
    have := congrArg (fun l => (l.map Feedback.confidence)) hEq
    norm_num [analyze_fit_quality, analyze_fit_quality_one,
      create_feedback] at this

/-- Claim C10: analyze_proportions is independent of the user_prefs
argument — any two preference values (including none) give identical
feedback lists. -/
theorem C10_theorem (detections : List Detection)
    (segmentation_results : List SegResult)
    (prefs1 prefs2 : Option UserPrefs) :
    analyze_proportions detections segmentation_results prefs1 =
    analyze_proportions detections segmentation_results prefs2 := rfl

/-- Claim C7: with a detected skin tone, the individual scores are the
pairwise skin-to-garment harmony scores (one per garment carrying a
primary color), the overall score is their arithmetic mean with 0.7
as the default when there are none, the overall score lies in [0, 1]
(in the undetected branch as well), the harmony type is the strict
">"-classification of the overall score, and scores of exactly
0.8 / 0.7 / 0.6 classify as good / neutral / poor. -/
theorem C7_theorem (skin : SkinTone) (garment_colors : List GarmentColor)
    (hdet : skin.detected = true) :
    ((analyze_color_harmony skin garment_colors).individual_scores =
      garment_colors.filterMap (fun garment =>
        garment.primary_color.map
          (fun primary => calculate_harmony_score skin.hsv primary.hsv))) ∧
    ((analyze_color_harmony skin garment_colors).overall_score =
      (if (analyze_color_harmony skin garment_colors).individual_scores = []
       then 7/10
       else np_mean
        (analyze_color_harmony skin garment_colors).individual_scores)) ∧
    (0 ≤ (analyze_color_harmony skin garment_colors).overall_score ∧
      (analyze_color_harmony skin garment_colors).overall_score ≤ 1) ∧
    (0 ≤ (analyze_color_harmony { skin with detected := false }
        garment_colors).overall_score ∧
      (analyze_color_harmony { skin with detected := false }
        garment_colors).overall_score ≤ 1) ∧
    ((analyze_color_harmony skin garment_colors).harmony_type =
      classify_harmony_type
        (analyze_color_harmony skin garment_colors).overall_score) ∧
    classify_harmony_type (8/10) = "good" ∧
    classify_harmony_type (7/10) = "neutral" ∧
    classify_harmony_type (6/10) = "poor" := by
  have hcond : ¬ (skin.detected = false) := by simp [hdet]
  have h1 := harmony_scores_eq skin garment_colors hdet
  have hmem : ∀ x ∈ garment_colors.filterMap (fun garment =>
      garment.primary_color.map
        (fun primary => calculate_harmony_score skin.hsv primary.hsv)),
      0 ≤ x ∧ x ≤ 1 := by
    intro x hx
    rcases List.mem_filterMap.mp hx with ⟨g, hg, hsome⟩
    rcases Option.map_eq_some'.mp hsome with ⟨p, hp, hfx⟩
    subst hfx
    exact ⟨le_trans (by norm_num) (harmony_score_bounds _ _).1,
      (harmony_score_bounds _ _).2⟩
  have e2 : (analyze_color_harmony skin garment_colors).overall_score =
      (if (analyze_color_harmony skin garment_colors).individual_scores = []
       then 7/10
       else np_mean
        (analyze_color_harmony skin garment_colors).individual_scores) := by
    simp [analyze_color_harmony, if_neg hcond, np_mean]
  refine ⟨h1, e2, ?_, ?_, ?_, by norm_num [classify_harmony_type],
    by norm_num [classify_harmony_type], by norm_num [classify_harmony_type]⟩
  · rw [e2, h1]
    have := overall_bounds_aux _ hmem
    simpa [np_mean] using this
  · norm_num [analyze_color_harmony]
  · simp [analyze_color_harmony, if_neg hcond]

/-- Claim C7 witness: a concrete detected skin tone with no garments,
instantiating the [0, 1] bound of C7_theorem. -/
theorem C7_witness :
    (SkinTone.mk true "light" ⟨10, 100, 200⟩).detected = true ∧
    (0 ≤ (analyze_color_harmony ⟨true, "light", ⟨10, 100, 200⟩⟩
        []).overall_score ∧
      (analyze_color_harmony ⟨true, "light", ⟨10, 100, 200⟩⟩
        []).overall_score ≤ 1) :=
  ⟨rfl, (C7_theorem ⟨true, "light", ⟨10, 100, 200⟩⟩ [] rfl).2.2.1⟩

/-- Claim C8: for a shirt or pants detection with a person present, a
proportion violation is emitted exactly when the tolerance is strictly
exceeded: "too long" when the ratio strictly exceeds ideal plus
tolerance and "too short" otherwise (0.8, medium, actionable);
otherwise the well-proportioned item (0.9, low, non-actionable); in
particular a ratio exactly equal to ideal plus tolerance is within
tolerance and produces the well-proportioned item, not a violation. -/
theorem C8_theorem (person_detection det : Detection) (garment_ratio : ℚ)
    (ideal_ratio tolerance : ℚ)
    (hcls : det.cls = "shirt" ∨ det.cls = "pants")
    (hratio : garment_ratio =
      ((det.bbox.y2 - det.bbox.y1 : ℤ) : ℚ) /
        ((person_detection.bbox.y2 - person_detection.bbox.y1 : ℤ) : ℚ))
    (hideal : ideal_ratio = if det.cls = "shirt" then 4/10 else 6/10)
    (htol : tolerance = 1/10) :
    (tolerance < |garment_ratio - ideal_ratio| →
      ideal_ratio + tolerance < garment_ratio →
      analyze_garment_proportions [det] person_detection =
        [create_feedback "proportion"
          (if det.cls = "shirt"
           then "The shirt appears too long for your body proportions"
           else "The pants appear too long for your body proportions")
          (8/10) "medium" true]) ∧
    (tolerance < |garment_ratio - ideal_ratio| →
      garment_ratio ≤ ideal_ratio + tolerance →
      analyze_garment_proportions [det] person_detection =
        [create_feedback "proportion"
          (if det.cls = "shirt"
           then "The shirt appears too short for your body proportions"
           else "The pants appear too short for your body proportions")
          (8/10) "medium" true]) ∧
    (|garment_ratio - ideal_ratio| ≤ tolerance →
      analyze_garment_proportions [det] person_detection =
        [create_feedback "proportion"
          (if det.cls = "shirt"
           then "The shirt length is well-proportioned for your body"
           else "The pants length is well-proportioned for your body")
          (9/10) "low" false]) ∧
    (garment_ratio = ideal_ratio + tolerance →
      analyze_garment_proportions [det] person_detection =
        [create_feedback "proportion"
          (if det.cls = "shirt"
           then "The shirt length is well-proportioned for your body"
           else "The pants length is well-proportioned for your body")
          (9/10) "low" false]) := by
  subst htol
  subst hratio
  rcases hcls with h | h <;>
    rw [h] at hideal <;> simp at hideal <;>
    subst hideal <;>
    refine ⟨fun h1 h2 => ?_, fun h1 h2 => ?_, fun h1 => ?_, fun h1 => ?_⟩ <;>
    rw [analyze_garment_proportions_singleton] <;>
    (first
      | rw [garment_one_shirt _ det h]
      | rw [garment_one_pants _ det h]) <;>
    simp only [shirt_length_ideal_ratio, shirt_length_tolerance,
      pants_length_ideal_ratio, pants_length_tolerance, gt_iff_lt]
  · rw [if_pos h1, if_pos h2]
    simp [h]
  · rw [if_pos h1, if_neg (not_lt.mpr h2)]
    simp [h]
  · rw [if_neg (not_lt.mpr h1)]
    simp [h]
  · have habs : |((det.bbox.y2 - det.bbox.y1 : ℤ) : ℚ) /
        ((person_detection.bbox.y2 - person_detection.bbox.y1 : ℤ) : ℚ) -
        4/10| ≤ 1/10 := by
      rw [h1]
      norm_num
      rw [abs_of_nonneg (by norm_num)]
    rw [if_neg (not_lt.mpr habs)]
    simp [h]
  · rw [if_pos h1, if_pos h2]
    simp [h]
  · rw [if_pos h1, if_neg (not_lt.mpr h2)]
    simp [h]
  · rw [if_neg (not_lt.mpr h1)]
    simp [h]
  · have habs : |((det.bbox.y2 - det.bbox.y1 : ℤ) : ℚ) /
        ((person_detection.bbox.y2 - person_detection.bbox.y1 : ℤ) : ℚ) -
        6/10| ≤ 1/10 := by
      rw [h1]
      norm_num
      rw [abs_of_nonneg (by norm_num)]
    rw [if_neg (not_lt.mpr habs)]
    simp [h]

/-- Claim C8 witness: a shirt spanning exactly half the person height
(ratio 0.5 = ideal 0.4 + tolerance 0.1) sits exactly on the tolerance
edge and receives the well-proportioned item, no violation. -/
theorem C8_witness :
    analyze_garment_proportions [⟨⟨0, 0, 50, 100⟩, "shirt", 9/10⟩]
      ⟨⟨0, 0, 50, 200⟩, "person", 9/10⟩ =
      [create_feedback "proportion"
        "The shirt length is well-proportioned for your body"
        (9/10) "low" false] :=
  (C8_theorem ⟨⟨0, 0, 50, 200⟩, "person", 9/10⟩ ⟨⟨0, 0, 50, 100⟩, "shirt", 9/10⟩
    (1/2) (4/10) (1/10) (Or.inl rfl) (by norm_num) (by norm_num) rfl).2.2.2
    (by norm_num)

end TailorAI
